import Mathlib

/-!
Verification of the `py-license-auditor` Python launcher
(`src/python/py_license_auditor/__init__.py`) against its
natural-language specification.

The launcher is shallowly embedded: the platform-to-binary-name mapping
and the path check of `get_binary_path` become pure Lean functions over
explicit inputs (`platform.system()` / `platform.machine()` strings, a
file-existence oracle), and `main` becomes a function from an abstract
environment to the trace of effects it performs (chmod, subprocess
invocation, prints to standard error / standard output) together with
the process exit code passed to `sys.exit`.
-/

namespace PyLicenseAuditor

/-- Python's `str.lower()` on the ASCII platform strings involved here:
lowercase every character. -/
def lower (s : String) : String := ⟨s.data.map Char.toLower⟩

/-- The body of the `if system == ... / elif ... / else raise` chain of
`get_binary_path` (lines 21–45 of the source): given the raw
`platform.system()` and `platform.machine()` strings it lowercases both
and either produces the pre-built binary's file name or fails with the
`RuntimeError` message the code raises. -/
def binary_name (system machine : String) : Except String String :=
  let s := lower system
  let m := lower machine
  if s == "linux" then
    if m == "x86_64" || m == "amd64" then
      Except.ok "py-license-auditor-linux-x86_64"
    else if m == "aarch64" || m == "arm64" then
      Except.ok "py-license-auditor-linux-aarch64"
    else
      Except.error ("Unsupported Linux architecture: " ++ m)
  else if s == "darwin" then
    if m == "x86_64" || m == "amd64" then
      Except.ok "py-license-auditor-macos-x86_64"
    else if m == "aarch64" || m == "arm64" then
      Except.ok "py-license-auditor-macos-aarch64"
    else
      Except.error ("Unsupported macOS architecture: " ++ m)
  else if s == "windows" then
    if m == "x86_64" || m == "amd64" then
      Except.ok "py-license-auditor-windows-x86_64.exe"
    else
      Except.error ("Unsupported Windows architecture: " ++ m)
  else
    Except.error ("Unsupported operating system: " ++ s)

/-- Path join `bin_dir / binary_name` (pathlib `/` operator). -/
def joinPath (dir name : String) : String := dir ++ "/" ++ name

/-- `get_binary_path` (lines 16–52): computes the platform binary name,
joins it under the package `bin` directory, and returns the path only
when a file exists there, otherwise raising `RuntimeError` with the
`Binary not found` message.  `bin_dir` stands for the
`Path(__file__).parent / "bin"` directory and `fileExists` for
`Path.exists`. -/
def get_binary_path (bin_dir : String) (system machine : String)
    (fileExists : String → Bool) : Except String String :=
  match binary_name system machine with
  | Except.error e => Except.error e
  | Except.ok name =>
    let binary_path := joinPath bin_dir name
    if fileExists binary_path then
      Except.ok binary_path
    else
      Except.error ("Binary not found: " ++ binary_path)

/-- An observable effect performed by `main`. -/
inductive Event where
  | chmod (path : String) (mode : Nat)
  | exec (argv : List String)
  | printErr (line : String)
  | printOut (line : String)
  deriving DecidableEq, Repr

/-- The abstract environment `main` runs in: the platform strings, the
file-existence oracle, and the outcomes of the two fallible system
calls it makes (`os.chmod` and `subprocess.run`); an `Except.error`
models the call raising an exception carrying that message, and the
`Except.ok` of `runChild` is the child's return code. -/
structure Env where
  bin_dir : String
  system : String
  machine : String
  fileExists : String → Bool
  chmodResult : String → Nat → Except String Unit
  runChild : List String → Except String Int

/-- The observable outcome of one invocation of `main`: the effects it
performed, in order, and the exit code it passes to `sys.exit`. -/
structure MainResult where
  events : List Event
  exitCode : Int
  deriving DecidableEq, Repr

/-- `main` (lines 54–68): resolve the binary path, `os.chmod` it to
`0o755`, run it with the process arguments after the program name
(`sys.argv[1:]`), and exit with the child's return code; any exception
along the way is caught, printed as `Error: <message>` to standard
error, and turned into `sys.exit(1)`.  `argv` is the full `sys.argv`,
program name included. -/
def main (env : Env) (argv : List String) : MainResult :=
  match get_binary_path env.bin_dir env.system env.machine env.fileExists with
  | Except.error e =>
    { events := [Event.printErr ("Error: " ++ e)], exitCode := 1 }
  | Except.ok binary_path =>
    match env.chmodResult binary_path 0o755 with
    | Except.error e =>
      { events := [Event.printErr ("Error: " ++ e)], exitCode := 1 }
    | Except.ok _ =>
      let childArgv := binary_path :: argv.drop 1
      match env.runChild childArgv with
      | Except.error e =>
        { events := [Event.chmod binary_path 0o755,
                     Event.printErr ("Error: " ++ e)], exitCode := 1 }
      | Except.ok rc =>
        { events := [Event.chmod binary_path 0o755,
                     Event.exec childArgv], exitCode := rc }

/-- The (operating system, machine) pairs the mapping of
`get_binary_path` accepts, on the lowercased strings. -/
def supportedPair (system machine : String) : Bool :=
  let s := lower system
  let m := lower machine
  (s == "linux" && (m == "x86_64" || m == "amd64" || m == "aarch64" || m == "arm64")) ||
  (s == "darwin" && (m == "x86_64" || m == "amd64" || m == "aarch64" || m == "arm64")) ||
  (s == "windows" && (m == "x86_64" || m == "amd64"))

/-- A concrete environment used by the witness theorems: Linux/x86_64,
every file present, chmod succeeds, the child returns code 7. -/
def sampleEnv : Env :=
  { bin_dir := "/pkg/bin"
    system := "Linux"
    machine := "x86_64"
    fileExists := fun _ => true
    chmodResult := fun _ _ => Except.ok ()
    runChild := fun _ => Except.ok 7 }

/-- A concrete environment on an unsupported operating system. -/
def unsupportedEnv : Env :=
  { sampleEnv with system := "FreeBSD" }

/-- `binary_name` succeeds exactly on the supported platform pairs. -/
theorem binary_name_ok_supported (system machine : String) :
    (binary_name system machine).isOk = supportedPair system machine := by
  simp only [binary_name, supportedPair]
  split_ifs with h1 h2 h3 h4 h5 h6 h7 h8 <;>
    simp_all [Except.isOk, Except.toBool]

/-- C1: when `get_binary_path` succeeds and the system calls do not
raise, `main` chmods the resolved binary, executes it with the resolved
path followed by exactly `sys.argv[1:]` in order, and exits with the
child's return code. -/
theorem C1_forwards_args_and_exit (env : Env) (argv : List String)
    (path : String) (rc : Int)
    (hget : get_binary_path env.bin_dir env.system env.machine env.fileExists =
      Except.ok path)
    (hchmod : env.chmodResult path 0o755 = Except.ok ())
    (hrun : env.runChild (path :: argv.drop 1) = Except.ok rc) :
    (main env argv).events =
      [Event.chmod path 0o755, Event.exec (path :: argv.drop 1)] ∧
    (main env argv).exitCode = rc := by
  rw [List.drop_one] at hrun
  simp [main, hget, hchmod, hrun]

/-- Witness for C1 at a concrete Linux/x86_64 environment where the
child returns 7. -/
theorem C1_forwards_args_and_exit_witness :
    (main sampleEnv ["py-license-auditor", "--format", "json"]).events =
      [Event.chmod "/pkg/bin/py-license-auditor-linux-x86_64" 0o755,
       Event.exec ["/pkg/bin/py-license-auditor-linux-x86_64", "--format", "json"]] ∧
    (main sampleEnv ["py-license-auditor", "--format", "json"]).exitCode = 7 :=
  C1_forwards_args_and_exit sampleEnv ["py-license-auditor", "--format", "json"]
    "/pkg/bin/py-license-auditor-linux-x86_64" 7 rfl rfl rfl

/-- C2: for every supported (operating system, machine) pair the
mapping yields a platform-specific binary name under the bin directory,
determined solely by the lowercased strings, and every other pair fails
with an unsupported-platform error. -/
theorem C2_platform_mapping (bin_dir : String) (fileExists : String → Bool)
    (hall : ∀ p, fileExists p = true) (system machine : String) :
    (supportedPair system machine = true →
      ∃ name, binary_name system machine = Except.ok name ∧
        get_binary_path bin_dir system machine fileExists =
          Except.ok (joinPath bin_dir name)) ∧
    (supportedPair system machine = false →
      ∃ e, get_binary_path bin_dir system machine fileExists = Except.error e) ∧
    (∀ system2 machine2, lower system = lower system2 →
      lower machine = lower machine2 →
      binary_name system machine = binary_name system2 machine2) := by
  refine ⟨?_, ?_, ?_⟩
  · intro hs
    have h := binary_name_ok_supported system machine
    rw [hs] at h
    cases hbn : binary_name system machine with
    | error e => rw [hbn] at h; simp [Except.isOk, Except.toBool] at h
    | ok name =>
      refine ⟨name, rfl, ?_⟩
      simp [get_binary_path, hbn, hall]
  · intro hs
    have h := binary_name_ok_supported system machine
    rw [hs] at h
    cases hbn : binary_name system machine with
    | ok name => rw [hbn] at h; simp [Except.isOk, Except.toBool] at h
    | error e =>
      exact ⟨e, by simp [get_binary_path, hbn]⟩
  · intro system2 machine2 hseq hmeq
    simp only [binary_name, hseq, hmeq]

/-- Witness for C2: applies the mapping theorem on Darwin/arm64 with
every file present, yielding the macOS aarch64 binary path. -/
theorem C2_platform_mapping_witness :
    supportedPair "Darwin" "arm64" = true ∧
    (∃ name, binary_name "Darwin" "arm64" = Except.ok name ∧
      get_binary_path "/pkg/bin" "Darwin" "arm64" (fun _ => true) =
        Except.ok (joinPath "/pkg/bin" name)) :=
  ⟨by decide,
   (C2_platform_mapping "/pkg/bin" (fun _ => true) (fun _ => rfl)
     "Darwin" "arm64").1 (by decide)⟩

/-- C3 counterexample: on an unsupported operating system the launcher
exits with code 1, not 2 as the claim states. -/
theorem C3_counterexample :
    get_binary_path unsupportedEnv.bin_dir unsupportedEnv.system
      unsupportedEnv.machine unsupportedEnv.fileExists =
      Except.error "Unsupported operating system: freebsd" ∧
    (main unsupportedEnv ["py-license-auditor"]).exitCode = 1 ∧
    (main unsupportedEnv ["py-license-auditor"]).exitCode ≠ 2 := by
  refine ⟨rfl, rfl, by decide⟩

/-- C3 amended: whenever the launcher encounters a fatal environment
error (unsupported operating system, unsupported architecture, or the
binary missing on disk — i.e. `get_binary_path` raises), the process
exits with code 1. -/
theorem C3_fatal_exit_code (env : Env) (argv : List String) (e : String)
    (h : get_binary_path env.bin_dir env.system env.machine env.fileExists =
      Except.error e) :
    (main env argv).exitCode = 1 := by
  simp [main, h]

/-- Witness for the amended C3 on the concrete unsupported system. -/
theorem C3_fatal_exit_code_witness :
    (main unsupportedEnv ["py-license-auditor"]).exitCode = 1 :=
  C3_fatal_exit_code unsupportedEnv ["py-license-auditor"]
    "Unsupported operating system: freebsd" rfl

/-- C4: once a binary name is computed, `get_binary_path` returns the
joined path exactly when a file exists there; when no file exists it
raises the `Binary not found` error naming that path. -/
theorem C4_existence_check (bin_dir system machine : String)
    (fileExists : String → Bool) (name : String)
    (h : binary_name system machine = Except.ok name) :
    (∀ p, get_binary_path bin_dir system machine fileExists = Except.ok p →
      p = joinPath bin_dir name ∧ fileExists p = true) ∧
    (fileExists (joinPath bin_dir name) = true →
      get_binary_path bin_dir system machine fileExists =
        Except.ok (joinPath bin_dir name)) ∧
    (fileExists (joinPath bin_dir name) = false →
      get_binary_path bin_dir system machine fileExists =
        Except.error ("Binary not found: " ++ joinPath bin_dir name)) := by
  refine ⟨?_, ?_, ?_⟩
  · intro p hp
    simp only [get_binary_path, h] at hp
    by_cases hf : fileExists (joinPath bin_dir name) = true
    · rw [if_pos hf] at hp
      cases hp
      exact ⟨rfl, hf⟩
    · rw [if_neg hf] at hp
      cases hp
  · intro hf
    simp [get_binary_path, h, hf]
  · intro hf
    simp [get_binary_path, h, hf]

/-- Witness for C4 on Linux/x86_64 with no files present: the missing
path is named in the error. -/
theorem C4_existence_check_witness :
    get_binary_path "/pkg/bin" "Linux" "x86_64" (fun _ => false) =
      Except.error
        ("Binary not found: " ++ joinPath "/pkg/bin" "py-license-auditor-linux-x86_64") :=
  (C4_existence_check "/pkg/bin" "Linux" "x86_64" (fun _ => false)
    "py-license-auditor-linux-x86_64" rfl).2.2 rfl

/-- C5: when `get_binary_path` fails, `main` only prints the diagnostic
and never executes the child binary: no `exec` event occurs in its
trace. -/
theorem C5_no_exec_on_failure (env : Env) (argv : List String) (e : String)
    (h : get_binary_path env.bin_dir env.system env.machine env.fileExists =
      Except.error e) :
    (main env argv).events = [Event.printErr ("Error: " ++ e)] ∧
    ∀ a, Event.exec a ∉ (main env argv).events := by
  have hm : (main env argv).events = [Event.printErr ("Error: " ++ e)] := by
    simp [main, h]
  refine ⟨hm, fun a ha => ?_⟩
  rw [hm] at ha
  simp at ha

/-- Witness for C5 on the concrete unsupported system. -/
theorem C5_no_exec_on_failure_witness :
    (main unsupportedEnv ["py-license-auditor"]).events =
      [Event.printErr ("Error: " ++ "Unsupported operating system: freebsd")] ∧
    ∀ a, Event.exec a ∉ (main unsupportedEnv ["py-license-auditor"]).events :=
  C5_no_exec_on_failure unsupportedEnv ["py-license-auditor"]
    "Unsupported operating system: freebsd" rfl

/-- Boolean test: the event is a print to standard error. -/
def isPrintErr : Event → Bool
  | Event.printErr _ => true
  | _ => false

/-- Boolean test: the string ends in `.exe`. -/
def exeSuffix (s : String) : Bool := ".exe".data.isSuffixOf s.data

/-- C6: whenever `main` executes the child binary, the trace contains a
`chmod` to `0o755` on that binary strictly before the `exec`, and the
`exec`'s argument vector is the binary path followed by `sys.argv[1:]`. -/
theorem C6_chmod_before_exec (env : Env) (argv : List String) (a : List String)
    (h : Event.exec a ∈ (main env argv).events) :
    ∃ path l1 l2, (main env argv).events = l1 ++ Event.exec a :: l2 ∧
      Event.chmod path 0o755 ∈ l1 ∧ a = path :: argv.drop 1 := by
  cases hg : get_binary_path env.bin_dir env.system env.machine env.fileExists with
  | error e => simp [main, hg] at h
  | ok p =>
    cases hc : env.chmodResult p 0o755 with
    | error e => simp [main, hg, hc] at h
    | ok u =>
      cases hr : env.runChild (p :: argv.tail) with
      | error e => simp [main, hg, hc, hr] at h
      | ok rc =>
        have hev : (main env argv).events =
            [Event.chmod p 0o755, Event.exec (p :: argv.tail)] := by
          simp [main, hg, hc, hr]
        rw [hev] at h ⊢
        simp at h
        exact ⟨p, [Event.chmod p 0o755], [], by simp [h], by simp, by simp [h]⟩

/-- Witness for C6 at the concrete successful environment. -/
theorem C6_chmod_before_exec_witness :
    Event.exec ["/pkg/bin/py-license-auditor-linux-x86_64", "--check"] ∈
      (main sampleEnv ["py-license-auditor", "--check"]).events ∧
    ∃ path l1 l2,
      (main sampleEnv ["py-license-auditor", "--check"]).events =
        l1 ++ Event.exec ["/pkg/bin/py-license-auditor-linux-x86_64", "--check"] :: l2 ∧
      Event.chmod path 0o755 ∈ l1 ∧
      ["/pkg/bin/py-license-auditor-linux-x86_64", "--check"] =
        path :: (["py-license-auditor", "--check"] : List String).drop 1 :=
  ⟨by decide,
   C6_chmod_before_exec sampleEnv ["py-license-auditor", "--check"]
     ["/pkg/bin/py-license-auditor-linux-x86_64", "--check"] (by decide)⟩

/-- C7: on every fatal-error path (`get_binary_path`, `os.chmod` or
`subprocess.run` raising), `main` prints exactly one line to standard
error, of the form `Error: <message>`, and nothing to standard
output. -/
theorem C7_single_diagnostic (env : Env) (argv : List String)
    (h : (∃ e, get_binary_path env.bin_dir env.system env.machine env.fileExists =
            Except.error e) ∨
         (∃ p e, get_binary_path env.bin_dir env.system env.machine env.fileExists =
            Except.ok p ∧ env.chmodResult p 0o755 = Except.error e) ∨
         (∃ p e, get_binary_path env.bin_dir env.system env.machine env.fileExists =
            Except.ok p ∧ env.chmodResult p 0o755 = Except.ok () ∧
            env.runChild (p :: argv.tail) = Except.error e)) :
    ((main env argv).events.filter isPrintErr).length = 1 ∧
    (∀ s, Event.printErr s ∈ (main env argv).events → ∃ m, s = "Error: " ++ m) ∧
    (∀ s, Event.printOut s ∉ (main env argv).events) := by
  rcases h with ⟨e, hg⟩ | ⟨p, e, hg, hc⟩ | ⟨p, e, hg, hc, hr⟩
  · have hm : (main env argv).events = [Event.printErr ("Error: " ++ e)] := by
      simp [main, hg]
    rw [hm]
    exact ⟨rfl, fun s hs => ⟨e, by simpa using hs⟩, fun s hs => by simp at hs⟩
  · have hm : (main env argv).events = [Event.printErr ("Error: " ++ e)] := by
      simp [main, hg, hc]
    rw [hm]
    exact ⟨rfl, fun s hs => ⟨e, by simpa using hs⟩, fun s hs => by simp at hs⟩
  · have hm : (main env argv).events =
        [Event.chmod p 0o755, Event.printErr ("Error: " ++ e)] := by
      simp [main, hg, hc, hr]
    rw [hm]
    exact ⟨rfl, fun s hs => ⟨e, by simpa using hs⟩, fun s hs => by simp at hs⟩

/-- Witness for C7 on the concrete unsupported system. -/
theorem C7_single_diagnostic_witness :
    ((main unsupportedEnv ["py-license-auditor"]).events.filter isPrintErr).length = 1 ∧
    (∀ s, Event.printErr s ∈ (main unsupportedEnv ["py-license-auditor"]).events →
      ∃ m, s = "Error: " ++ m) ∧
    (∀ s, Event.printOut s ∉ (main unsupportedEnv ["py-license-auditor"]).events) :=
  C7_single_diagnostic unsupportedEnv ["py-license-auditor"]
    (Or.inl ⟨"Unsupported operating system: freebsd", rfl⟩)

/-- C8: on Windows only x86_64/amd64 is accepted — anything else,
including the aarch64/arm64 values accepted on Linux and Darwin, raises
the unsupported-architecture error — and the Windows binary name alone
ends in `.exe`. -/
theorem C8_windows_only_x86 (machine : String) :
    ((lower machine == "x86_64" || lower machine == "amd64") = true →
      binary_name "windows" machine =
        Except.ok "py-license-auditor-windows-x86_64.exe") ∧
    ((lower machine == "x86_64" || lower machine == "amd64") = false →
      binary_name "windows" machine =
        Except.error ("Unsupported Windows architecture: " ++ lower machine)) ∧
    (∀ system name, binary_name system machine = Except.ok name →
      (exeSuffix name = true ↔ lower system = "windows")) := by
  have hlw : lower "windows" = "windows" := rfl
  refine ⟨?_, ?_, ?_⟩
  · intro h
    simp [binary_name, hlw, h]
  · intro h
    simp [binary_name, hlw, h]
  · intro system name hname
    simp only [binary_name] at hname
    split_ifs at hname with h1 h2 h3 h4 h5 h6 h7 h8 <;>
      (try injection hname with hname) <;>
      (try subst hname) <;>
      simp_all <;> decide

/-- Witness for C8: Windows rejects arm64 (which Linux accepts), and the
Windows binary name carries the `.exe` suffix. -/
theorem C8_windows_only_x86_witness :
    binary_name "windows" "arm64" =
      Except.error ("Unsupported Windows architecture: " ++ lower "arm64") ∧
    binary_name "linux" "arm64" = Except.ok "py-license-auditor-linux-aarch64" ∧
    (exeSuffix "py-license-auditor-windows-x86_64.exe" = true ↔
      lower "windows" = "windows") :=
  ⟨(C8_windows_only_x86 "arm64").2.1 (by decide),
   rfl,
   (C8_windows_only_x86 "x86_64").2.2 "windows"
     "py-license-auditor-windows-x86_64.exe" rfl⟩

/-- C9: `main` always terminates in a `sys.exit`: either the child ran
and the exit code is its return code, or exit code 1 follows a
diagnostic print after an exception was caught. -/
theorem C9_always_exits (env : Env) (argv : List String) :
    ((main env argv).exitCode = 1 ∧
      ∃ s, Event.printErr s ∈ (main env argv).events) ∨
    (∃ a rc, env.runChild a = Except.ok rc ∧
      Event.exec a ∈ (main env argv).events ∧
      (main env argv).exitCode = rc) := by
  cases hg : get_binary_path env.bin_dir env.system env.machine env.fileExists with
  | error e =>
    exact Or.inl ⟨by simp [main, hg], ⟨"Error: " ++ e, by simp [main, hg]⟩⟩
  | ok p =>
    cases hc : env.chmodResult p 0o755 with
    | error e =>
      exact Or.inl ⟨by simp [main, hg, hc], ⟨"Error: " ++ e, by simp [main, hg, hc]⟩⟩
    | ok u =>
      cases hr : env.runChild (p :: argv.tail) with
      | error e =>
        exact Or.inl ⟨by simp [main, hg, hc, hr],
          ⟨"Error: " ++ e, by simp [main, hg, hc, hr]⟩⟩
      | ok rc =>
        exact Or.inr ⟨p :: argv.tail, rc, hr,
          by simp [main, hg, hc, hr], by simp [main, hg, hc, hr]⟩

/-- C10: architecture aliases are interchangeable — for any system,
`x86_64` and `amd64` give the same result, as do `aarch64` and `arm64` —
and the computation is deterministic in its inputs. -/
theorem C10_arch_aliases (bin_dir system : String) (fileExists : String → Bool) :
    get_binary_path bin_dir system "x86_64" fileExists =
      get_binary_path bin_dir system "amd64" fileExists ∧
    (∀ p, get_binary_path bin_dir system "aarch64" fileExists = Except.ok p ↔
      get_binary_path bin_dir system "arm64" fileExists = Except.ok p) ∧
    ∀ machine, get_binary_path bin_dir system machine fileExists =
      get_binary_path bin_dir system machine fileExists := by
  have e1 : lower "x86_64" = "x86_64" := rfl
  have e2 : lower "amd64" = "amd64" := rfl
  have e3 : lower "aarch64" = "aarch64" := rfl
  have e4 : lower "arm64" = "arm64" := rfl
  have key : ∀ m1 m2 : String, binary_name system m1 = binary_name system m2 →
      get_binary_path bin_dir system m1 fileExists =
        get_binary_path bin_dir system m2 fileExists := by
    intro m1 m2 h
    simp [get_binary_path, h]
  have h1 : binary_name system "x86_64" = binary_name system "amd64" := by
    simp [binary_name, e1, e2]
  refine ⟨key _ _ h1, ?_, fun _ => rfl⟩
  intro p
  by_cases hs1 : lower system = "linux"
  · rw [key "aarch64" "arm64" (by simp [binary_name, e3, e4, hs1])]
  · by_cases hs2 : lower system = "darwin"
    · rw [key "aarch64" "arm64" (by simp [binary_name, e3, e4, hs1, hs2])]
    · by_cases hs3 : lower system = "windows"
      · constructor <;> intro h <;>
          simp [get_binary_path, binary_name, e3, e4, hs1, hs2, hs3] at h
      · rw [key "aarch64" "arm64" (by simp [binary_name, e3, e4, hs1, hs2, hs3])]

end PyLicenseAuditor
